import Mathlib

/-!
Shallow embedding of the DoraDP message-orchestration pipeline
(conversational scheduling assistant) and proofs about it.

Sources embedded:
- `src/middleware/*` (unnamed part_001): `validateWhatsAppSignature`,
  `whatsappSignatureMiddleware`, `checkRateLimit`, `rateLimitMiddleware`
- `src/services/reminder-scheduler.ts`: `processReminders`
- `src/integrations/supabase.ts`: `markReminderAsSent`, `getPendingReminders`,
  `deleteRemindersByGoogleEventId`
- `src/services/message-handler.ts`: `handleIncomingMessage`,
  `processScheduling`, `handleAlterarEvento`, `handleCancelarEvento`,
  `handleViewAgenda`

Conventions:
- Machine time is modelled as integer milliseconds since the Unix epoch
  (`Int`), matching JavaScript `Date.getTime()` / `Date.now()`.
- The repository hardcodes the `America/Sao_Paulo` timezone and its code
  comments state it is a fixed UTC-3 offset (no DST since 2019); the
  timezone decomposition below uses that fixed offset, valid for every
  instant the scheduler handles.
- External collaborators (Supabase, OpenAI, Google Calendar, the WhatsApp
  API, node `crypto`) are black boxes per the specification; they appear
  as function-valued parameters returning `Option` (success-or-error,
  mirroring the `ServiceResponse` success/data checks in the code).
- JavaScript truthiness on optional strings (`null`, `undefined`, `''`
  are falsy) is modelled by `truthyS`.
-/

namespace DoraDP

/-! ## Time and proleptic-Gregorian calendar model (JS `Date` / `Intl`) -/

def msPerMinute : Int := 60000
def msPerHour : Int := 3600000
def msPerDay : Int := 86400000

/-- Days since 1970-01-01 of a proleptic-Gregorian civil date
(year, month 1..12, day); linear in `d`, matching JS `Date.UTC` day
normalization. Standard civil-calendar algorithm. -/
def daysFromCivil (y m d : Int) : Int :=
  let y' := if m ≤ 2 then y - 1 else y
  let era := y' / 400
  let yoe := y' - era * 400
  let mp := if m ≤ 2 then m + 9 else m - 3
  let doy := (153 * mp + 2) / 5 + d - 1
  let doe := yoe * 365 + yoe / 4 - yoe / 100 + doy
  era * 146097 + doe - 719468

/-- Inverse of `daysFromCivil`: civil date (year, month, day) of a day
number since the epoch. -/
def civilFromDays (z : Int) : Int × Int × Int :=
  let z' := z + 719468
  let era := z' / 146097
  let doe := z' - era * 146097
  let yoe := (doe - doe / 1460 + doe / 36524 - doe / 146096) / 365
  let y := yoe + era * 400
  let doy := doe - (365 * yoe + yoe / 4 - yoe / 100)
  let mp := (5 * doy + 2) / 153
  let d := doy - (153 * mp + 2) / 5 + 1
  let m := if mp < 10 then mp + 3 else mp - 9
  (if m ≤ 2 then y + 1 else y, m, d)

/-- The `America/Sao_Paulo` fixed offset in hours: the code writes
`const spOffset = -3; // São Paulo é UTC-3 (sem horário de verão desde 2019)`. -/
def spOffsetHours : Int := -3

/-- Wall-clock components produced by the code's
`Intl.DateTimeFormat('en-CA', { timeZone: 'America/Sao_Paulo', ... })`
`formatToParts` call (year, month, day, hour, minute; `hour12: false`). -/
structure WallClock where
  year : Int
  month : Int
  day : Int
  hour : Int
  minute : Int
deriving Repr, DecidableEq

/-- Decompose an absolute instant (ms) into São Paulo wall-clock
components, as the `spFormatter.formatToParts` block does. -/
def spWallClock (t : Int) : WallClock :=
  let localMs := t + spOffsetHours * msPerHour
  let z := localMs / msPerDay
  let c := civilFromDays z
  let msOfDay := localMs % msPerDay
  { year := c.1, month := c.2.1, day := c.2.2,
    hour := msOfDay / msPerHour, minute := (msOfDay % msPerHour) / msPerMinute }

/-- São Paulo calendar day of an instant, as produced by the date-only
`spFormatter.format` (`en-CA` gives `YYYY-MM-DD`; equality of those
strings is equality of the civil triple). -/
def spDay (t : Int) : Int × Int × Int :=
  civilFromDays ((t + spOffsetHours * msPerHour) / msPerDay)

/-- JS `Date.UTC(y, m - 1, d, hh, mi, 0, 0)` for a civil month `m ∈ 1..12`
(hours/days outside their ranges normalize linearly, as in JS `MakeDay` /
`MakeTime`). -/
def dateUTC (y m d hh mi : Int) : Int :=
  daysFromCivil y m d * msPerDay + hh * msPerHour + mi * msPerMinute

/-! ## JS string truthiness -/

/-- Truthiness of a `string | null | undefined` value: `null`, `undefined`
and the empty string are falsy. -/
def truthyS : Option String → Bool
  | none => false
  | some s => !s.isEmpty

/-! ## Security gate: signature validation (unnamed part_001, lines 9-60) -/

/-- Does `pat` occur at the head of the character list? -/
def leadsWith : List Char → List Char → Bool
  | [], _ => true
  | _ :: _, [] => false
  | p :: ps, c :: cs => (p = c) && leadsWith ps cs

def removeFirstAux (pat : List Char) : List Char → List Char
  | [] => []
  | c :: cs =>
    if leadsWith pat (c :: cs) then List.drop pat.length (c :: cs)
    else c :: removeFirstAux pat cs

/-- JS `s.replace(pat, '')` with a plain-string pattern: remove the first
occurrence of `pat` (JS `String.prototype.replace` replaces only the
first match; the source always replaces with the empty string). -/
def removeFirst (s pat : String) : String :=
  String.mk (removeFirstAux pat.toList s.toList)

/-- node `crypto.timingSafeEqual` on `Buffer.from` of two strings (utf-8):
throws `ERR_CRYPTO_TIMING_SAFE_EQUAL_LENGTH` when the byte lengths differ,
otherwise reports byte equality (in constant time).  A thrown error is
modelled as `Except.error`. -/
def timingSafeEqual (a b : String) : Except String Bool :=
  if a.utf8ByteSize = b.utf8ByteSize then Except.ok (a == b)
  else Except.error "ERR_CRYPTO_TIMING_SAFE_EQUAL_LENGTH"

/-- Embeds `validateWhatsAppSignature(payload, signature)`.
`appSecret` models `env.whatsappAppSecret` (`none` = unset/empty, falsy);
`hmacSha256Hex secret payload` models the black-box
`crypto.createHmac('sha256', secret).update(payload).digest('hex')`
(always a 64-character hex string). An uncaught throw from
`crypto.timingSafeEqual` surfaces as `Except.error`. -/
def validateWhatsAppSignature
    (appSecret : Option String) (hmacSha256Hex : String → String → String)
    (payload : String) (signature : Option String) : Except String Bool :=
  match appSecret with
  | none => Except.ok true
  | some secret =>
    match signature with
    | none => Except.ok false
    | some sig =>
      let expectedSignature := removeFirst sig "sha256="
      let calculatedSignature := hmacSha256Hex secret payload
      timingSafeEqual expectedSignature calculatedSignature

/-- Outcome of the express middleware for one request. -/
inductive GateOutcome where
  /-- Outcome next: `next()` was called: the request proceeds to the orchestrator. -/
  | passed
  /-- Outcome 401: `res.status(401).json(...)`, rejected as unauthorized. -/
  | unauthorized
  /-- an exception escaped the middleware (express turns it into a 500,
  not a 401). -/
  | exception (msg : String)
deriving Repr, DecidableEq

/-- Embeds `whatsappSignatureMiddleware`: non-POST requests pass; otherwise the
signature of the (stringified) body is validated and a failure is
rejected with 401. -/
def whatsappSignatureMiddleware
    (appSecret : Option String) (hmacSha256Hex : String → String → String)
    (method : String) (body : String) (sigHeader : Option String) : GateOutcome :=
  if method ≠ "POST" then GateOutcome.passed
  else
    match validateWhatsAppSignature appSecret hmacSha256Hex body sigHeader with
    | Except.error e => GateOutcome.exception e
    | Except.ok false => GateOutcome.unauthorized
    | Except.ok true => GateOutcome.passed

/-! ## Security gate: rate limiter (unnamed part_001, lines 62-146) -/

structure RateLimitEntry where
  count : Nat
  firstRequest : Nat
deriving Repr, DecidableEq

/-- The in-memory `Map<string, RateLimitEntry>`. -/
abbrev RateLimitStore := List (String × RateLimitEntry)

def RATE_LIMIT_WINDOW_MS : Nat := 60 * 1000
def RATE_LIMIT_MAX_REQUESTS : Nat := 30

def storeGet : RateLimitStore → String → Option RateLimitEntry
  | [], _ => none
  | (k', e) :: rest, k => if k' = k then some e else storeGet rest k

def storeSet : RateLimitStore → String → RateLimitEntry → RateLimitStore
  | [], k, e => [(k, e)]
  | (k', e') :: rest, k, e =>
    if k' = k then (k, e) :: rest else (k', e') :: storeSet rest k e

/-- Embeds `checkRateLimit(key)` at time `now` (`Date.now()`, ms): returns
`{allowed, remaining}` and the updated store.  Mirrors the source: a
missing or expired entry starts a new window with count 1; a full window
rejects with remaining 0; otherwise the count is incremented in place. -/
def checkRateLimit (store : RateLimitStore) (key : String) (now : Nat) :
    (Bool × Nat) × RateLimitStore :=
  match storeGet store key with
  | none =>
    ((true, RATE_LIMIT_MAX_REQUESTS - 1), storeSet store key ⟨1, now⟩)
  | some entry =>
    if RATE_LIMIT_WINDOW_MS < now - entry.firstRequest then
      ((true, RATE_LIMIT_MAX_REQUESTS - 1), storeSet store key ⟨1, now⟩)
    else if RATE_LIMIT_MAX_REQUESTS ≤ entry.count then
      ((false, 0), store)
    else
      ((true, RATE_LIMIT_MAX_REQUESTS - (entry.count + 1)),
       storeSet store key ⟨entry.count + 1, entry.firstRequest⟩)

/-- Run a sequence of requests for one key through `checkRateLimit`,
collecting each `(allowed, remaining)` result. -/
def runKey (store : RateLimitStore) (key : String) :
    List Nat → List (Bool × Nat) × RateLimitStore
  | [] => ([], store)
  | t :: ts =>
    let r := checkRateLimit store key t
    let rest := runKey r.2 key ts
    (r.1 :: rest.1, rest.2)

/-! ## Reminder store and dispatcher
(`src/integrations/supabase.ts`, `src/services/reminder-scheduler.ts`) -/

/-- A row of the `reminders` table, joined with the owner's WhatsApp
number as `getPendingReminders` does (`users!inner(whatsapp_number)`). -/
structure Reminder where
  id : Nat
  google_event_id : Option String
  whatsapp_number : Option String
  event_title : String
  event_datetime : Int
  reminder_time : Int
  sent : Bool
deriving Repr, DecidableEq

abbrev ReminderTable := List Reminder

/-- Insertion into a list sorted by `reminder_time` ascending. -/
def insertByFire (r : Reminder) : List Reminder → List Reminder
  | [] => [r]
  | x :: xs =>
    if r.reminder_time ≤ x.reminder_time then r :: x :: xs
    else x :: insertByFire r xs

def sortByFire : List Reminder → List Reminder
  | [] => []
  | x :: xs => insertByFire x (sortByFire xs)

/-- Embeds `getPendingReminders()`: unsent reminders with
`reminder_time <= now`, ordered by `reminder_time` ascending. -/
def getPendingReminders (table : ReminderTable) (now : Int) : List Reminder :=
  sortByFire (table.filter (fun r => !r.sent && decide (r.reminder_time ≤ now)))

/-- Embeds `markReminderAsSent(reminderId)` exactly as written in
`supabase.ts` lines 359-380: an unconditional
`update({ sent: true }).eq('id', reminderId)`.  PostgREST reports success
whether or not the row was already sent (there is no `.eq('sent', false)`
guard and no affected-row check), so the returned flag is `true` save for
a transport error, which is outside this model. -/
def markReminderAsSent (table : ReminderTable) (rid : Nat) : Bool × ReminderTable :=
  (true, table.map (fun r => if r.id = rid then { r with sent := true } else r))

/-- As the specification describes `markReminderAsSent`: a compare-and-set
that fails when the reminder is already sent (conflict ⇒ "another cycle
got there first").  Modelled from the spec for contrast; the repository
does not implement the guard. -/
def markReminderAsSentGuarded (table : ReminderTable) (rid : Nat) : Bool × ReminderTable :=
  if table.any (fun r => r.id = rid && !r.sent) then
    (true, table.map (fun r => if r.id = rid then { r with sent := true } else r))
  else
    (false, table)

/-- The per-reminder loop of `processReminders` run over an
already-fetched list (`result.data`): skip rows with no WhatsApp number;
mark as sent BEFORE transmitting; on a mark failure, skip delivery
(`continue`).  `delivered` accumulates the transmitted messages as
`(whatsapp_number, event_title)` pairs.  `mark` is the mark-as-sent
operation in use (the code's or the spec's). -/
def processFetched (mark : ReminderTable → Nat → Bool × ReminderTable) :
    List Reminder → ReminderTable → List (String × String) →
    ReminderTable × List (String × String)
  | [], table, delivered => (table, delivered)
  | r :: rest, table, delivered =>
    match r.whatsapp_number with
    | none => processFetched mark rest table delivered
    | some number =>
      let m := mark table r.id
      if m.1 then
        processFetched mark rest m.2 (delivered ++ [(number, r.event_title)])
      else
        processFetched mark rest m.2 delivered

/-- Two dispatcher cycles that overlap as the spec's idempotence property
contemplates: both run `getPendingReminders` against the same table state
before either starts marking/sending, then execute in turn. -/
def twoOverlappingCycles (mark : ReminderTable → Nat → Bool × ReminderTable)
    (table : ReminderTable) (now : Int) : ReminderTable × List (String × String) :=
  let fetched₁ := getPendingReminders table now
  let fetched₂ := getPendingReminders table now
  let c₁ := processFetched mark fetched₁ table []
  processFetched mark fetched₂ c₁.1 c₁.2

/-! ## Message-handler data model (`src/types/index.ts`) -/

/-- The `users` row fields the orchestrator reads. -/
structure User where
  id : String
  whatsapp_number : String
  google_access_token : Option String
  google_refresh_token : Option String
  timezone : String
  onboarding_completed : Bool
deriving Repr, DecidableEq

inductive MsgType where
  | text | audio | image | document | unknown
deriving Repr, DecidableEq

/-- Inbound `WhatsAppMessage`: `text` is the `text?.body` payload when the
`text` object is present (the object, even with an empty body, is truthy);
`audio` is `(id, mime_type)` when the `audio` object is present. -/
structure WhatsAppMessage where
  from_ : String
  id : String
  type : MsgType
  text : Option String
  audio : Option (String × String)
deriving Repr, DecidableEq

/-- Result of `classifyMessage`. -/
structure Classification where
  intent : String
  target_date : Option String
deriving Repr, DecidableEq

/-- The `ExtractedEvent` draft; `data_inicio`/`data_fim` are the instants the ISO
strings denote, `all_day` collapses the optional boolean's `undefined` to
`false` (both are falsy in every use). -/
structure ExtractedEvent where
  titulo : String
  data_inicio : Int
  data_fim : Option Int
  descricao : Option String
  tipo_evento : String
  all_day : Bool
deriving Repr, DecidableEq

/-- A row returned by `getUserRecentEvents` (today-or-future events with a
non-null `google_event_id`, capped at 10, ascending by start). -/
structure UpcomingEvent where
  id : String
  titulo : String
  tipo_evento : String
  data_inicio : Int
  google_event_id : Option String
deriving Repr, DecidableEq

inductive Confidence where
  | high | low | none
deriving Repr, DecidableEq

/-- Result of `identifyEventToModify` (the Event Resolver). -/
structure IdentifyResult where
  google_event_id : Option String
  new_date : Option String
  new_time : Option String
  confidence : Confidence
deriving Repr, DecidableEq

/-- The `events_log` insert performed by `logEvent`. -/
structure LogRecord where
  user_id : String
  titulo : String
  tipo_evento : String
  data_inicio : Int
  data_fim : Option Int
  descricao : Option String
  google_event_id : Option String
  mensagem_original : String
  foi_audio : Bool
  status : String
deriving Repr, DecidableEq

/-- The `reminders` insert performed by `createReminder`. -/
structure ReminderInsert where
  user_id : String
  event_log_id : Option String
  google_event_id : String
  event_title : String
  event_datetime : Int
  reminder_time : Int
deriving Repr, DecidableEq

/-- The distinct user-facing replies the handler can send; each
constructor stands for one literal/template string of the source, carrying
the data interpolated into it. -/
inductive Reply where
  | registrationError
  | welcome
  | audioDownloadError
  | transcriptionError
  | unsupportedType
  | helpMessage
  | greeting
  | outOfScope
  | agendaReply (events : List UpcomingEvent)
  | agendaFetchError
  | connectGooglePrompt
  | dateRequest
  | confirmation (e : ExtractedEvent)
  | genericProcessingError
  | noUpcomingToAlter
  | noUpcomingToCancel
  | chooseEventToAlter (events : List UpcomingEvent)
  | chooseEventToCancel (events : List UpcomingEvent)
  | askNewDateTime
  | alterFailed
  | alterSuccess (newStart : Int)
  | cancelFailed
  | cancelSuccess (title : Option String)
  | noEventsForDay (todayLabel : Bool)
  | batchCancelReply (count : Nat) (titles : List String) (todayLabel : Bool)
  | unexpectedError
deriving Repr, DecidableEq

/-- Observable actions of one message flow, in order. -/
inductive Effect where
  | markAsRead (mid : String)
  | sentReply (to_ : String) (r : Reply)
  /-- the "Conectar Google" button message of the onboarding gate. -/
  | sentButton (to_ : String)
  | reaction (mid : String) (emoji : String)
  | downloadAttempt (mediaId : String)
  | transcribeAttempt (mime : String)
  | classifyAttempt (msg : String)
  | extractAttempt (msg : String)
  | calendarCreateAttempt (e : ExtractedEvent)
  | logWrite (rec : LogRecord)
  | reminderCreate (r : ReminderInsert)
  | identifyAttempt (msg : String)
  | calendarUpdateAttempt (gid : String) (newStart : Int)
  | calendarDeleteAttempt (gid : String)
  | reminderUpdateByGid (gid : String) (eventDatetime reminderTime : Int)
  | reminderDeleteByGid (gid : String)
  | listEventsAttempt
deriving Repr, DecidableEq

/-- The external collaborators (model calls, storage, calendar, media),
black boxes returning success-or-error per the spec; `none` covers both
`success: false` and a missing `data`. -/
structure Collaborators where
  getUser : String → Option User
  createUser : String → Option String → Option User
  downloadMedia : String → Option String
  transcribeAudio : String → String → Option String
  classifyMessage : String → String → Option Classification
  extractEvent : String → String → Option ExtractedEvent
  /-- Calendar creation, `some eventId` on success. -/
  createCalendarEvent : User → ExtractedEvent → Option String
  /-- id of the inserted `events_log` row (`logResult.data?.id`). -/
  logEventId : LogRecord → Option String
  getUserRecentEvents : String → Option (List UpcomingEvent)
  identifyEventToModify : String → List UpcomingEvent → String → Option IdentifyResult
  updateCalendarEvent : String → Int → Bool
  deleteCalendarEvent : String → Bool
  listEventsForDay : String → Option Int → Option (List UpcomingEvent)
  /-- JS `new Date(target_date + 'T12:00:00')` (server-local parse). -/
  parseLocalNoon : String → Int

/-! ## `src/services/message-handler.ts` -/

/-- JS `Number(component)` for the date/time components the resolver
emits (`YYYY-MM-DD` / `HH:MM`): a nonnegative decimal parses to itself;
any non-numeric component gives `NaN`, which behaves exactly like `0`
through the `||`-fallbacks below, so it is collapsed to `0`. -/
def jsNumber (s : String) : Int :=
  (s.toNat?).elim 0 Int.ofNat

/-- The `Alter` date/time recomposition (`handleAlterarEvento` lines
396-441): decompose the event's start in São Paulo wall-clock terms,
overwrite the components the resolver supplied (`year = newYear || year`
etc. for the date, `hours = newHours ?? hours` for the time), and
re-encode with `Date.UTC(year, month - 1, day, hours - spOffset, minutes)`. -/
def recomposeDateTime (currentStart : Int) (new_date new_time : Option String) : Int :=
  let w := spWallClock currentStart
  let ymd : Int × Int × Int :=
    match new_date with
    | some nd =>
      if !nd.isEmpty then
        let parts := (nd.splitOn "-").map jsNumber
        let ny := parts.getD 0 0
        let nm := parts.getD 1 0
        let ndy := parts.getD 2 0
        (if ny = 0 then w.year else ny,
         if nm = 0 then w.month else nm,
         if ndy = 0 then w.day else ndy)
      else (w.year, w.month, w.day)
    | none => (w.year, w.month, w.day)
  let hm : Int × Int :=
    match new_time with
    | some nt =>
      if !nt.isEmpty then
        let parts := (nt.splitOn ":").map jsNumber
        (match parts.get? 0 with | some h => h | none => w.hour,
         match parts.get? 1 with | some m => m | none => w.minute)
      else (w.hour, w.minute)
    | none => (w.hour, w.minute)
  dateUTC ymd.1 ymd.2.1 ymd.2.2 (hm.1 - spOffsetHours) hm.2

/-- JS regex `\w` (ASCII word character). -/
def isJsWordChar (ch : Char) : Bool :=
  (decide ('a' ≤ ch) && decide (ch ≤ 'z')) ||
  (decide ('A' ≤ ch) && decide (ch ≤ 'Z')) ||
  (decide ('0' ≤ ch) && decide (ch ≤ '9')) || ch = '_'

/-- JS `String.prototype.toLowerCase` restricted to its ASCII action,
which is all the word tests below distinguish (both the JS regexes and
the matched keywords are ASCII except for `amanhã`, whose `ã` has no
case variant the tests react to). -/
def jsToLower (s : String) : String :=
  String.mk (s.toList.map fun ch =>
    if decide ('A' ≤ ch) && decide (ch ≤ 'Z') then Char.ofNat (ch.toNat + 32) else ch)

def wordRunsAux : List Char → List Char → List String
  | [], acc => [String.mk acc.reverse]
  | c :: cs, acc =>
    if isJsWordChar c then wordRunsAux cs (c :: acc)
    else String.mk acc.reverse :: wordRunsAux cs []

/-- The runs of word characters of a string (empty runs between
consecutive separators included).  For a pattern made only of word
characters, `/\bpat\b/.test(s)` holds exactly when some maximal run
equals the pattern. -/
def wordRuns (s : String) : List String :=
  wordRunsAux s.toList []

/-- Embeds `/\b(todos?|tudo)\b/.test(msgLower)`. -/
def testBatchWord (s : String) : Bool :=
  (wordRuns s).any fun r => r = "todo" || r = "todos" || r = "tudo"

/-- Embeds `/\bhoje\b/.test(msgLower)`. -/
def testHoje (s : String) : Bool :=
  (wordRuns s).contains "hoje"

/-- Embeds `/\bamanh[aã]\b/.test(msgLower)`.  `ã` is not a JS word character, so
the accented alternative only matches when followed by a word character;
the unaccented one reduces to a word-run match. -/
def testAmanha (s : String) : Bool :=
  let cs := s.toList
  (wordRuns s).contains "amanha" ||
  (List.range cs.length).any fun i =>
    decide ((cs.drop i).take 6 = "amanhã".toList) &&
    !(if i = 0 then false else isJsWordChar (cs.getD (i - 1) ' ')) &&
    isJsWordChar (cs.getD (i + 6) ' ')

/-- Embeds `processScheduling` (lines 205-286). -/
def processScheduling (c : Collaborators) (now : Int) (user : User)
    (messageText : String) (isAudio : Bool) (messageId : String) : List Effect :=
  if !(truthyS user.google_access_token) || !(truthyS user.google_refresh_token) then
    [Effect.sentReply user.whatsapp_number Reply.connectGooglePrompt]
  else
    Effect.reaction messageId "⏳" ::
    Effect.extractAttempt messageText ::
    match c.extractEvent messageText user.timezone with
    | none => [Effect.sentReply user.whatsapp_number Reply.dateRequest]
    | some event =>
      let googleEventId := c.createCalendarEvent user event
      let logRec : LogRecord :=
        { user_id := user.id, titulo := event.titulo,
          tipo_evento := event.tipo_evento, data_inicio := event.data_inicio,
          data_fim := event.data_fim, descricao := event.descricao,
          google_event_id := googleEventId, mensagem_original := messageText,
          foi_audio := isAudio,
          status := if truthyS googleEventId then "synced_google" else "created" }
      let logId := c.logEventId logRec
      let reminderEffects : List Effect :=
        if truthyS googleEventId && !event.all_day then
          let reminderTime := event.data_inicio - 10 * msPerMinute
          if now < reminderTime then
            [Effect.reminderCreate
              { user_id := user.id, event_log_id := logId,
                google_event_id := googleEventId.getD "",
                event_title := event.titulo,
                event_datetime := event.data_inicio,
                reminder_time := reminderTime }]
          else []
        else []
      Effect.calendarCreateAttempt event :: Effect.logWrite logRec ::
      reminderEffects ++
      [Effect.reaction messageId "✅",
       Effect.sentReply user.whatsapp_number (Reply.confirmation event)]

/-- Embeds `handleViewAgenda` (lines 291-320). -/
def handleViewAgenda (c : Collaborators) (user : User) (targetDate : Option Int) :
    List Effect :=
  if !(truthyS user.google_access_token) || !(truthyS user.google_refresh_token) then
    [Effect.sentReply user.whatsapp_number Reply.connectGooglePrompt]
  else
    Effect.listEventsAttempt ::
    match c.listEventsForDay user.id targetDate with
    | none => [Effect.sentReply user.whatsapp_number Reply.agendaFetchError]
    | some events => [Effect.sentReply user.whatsapp_number (Reply.agendaReply events)]

/-- Embeds `handleAlterarEvento` (lines 325-499). -/
def handleAlterarEvento (c : Collaborators) (now : Int) (user : User)
    (messageText : String) (messageId : String) : List Effect :=
  if !(truthyS user.google_access_token) || !(truthyS user.google_refresh_token) then
    [Effect.sentReply user.whatsapp_number Reply.connectGooglePrompt]
  else
    Effect.reaction messageId "⏳" ::
    match c.getUserRecentEvents user.id with
    | none => [Effect.sentReply user.whatsapp_number Reply.noUpcomingToAlter]
    | some events =>
      if events.isEmpty then
        [Effect.sentReply user.whatsapp_number Reply.noUpcomingToAlter]
      else
        Effect.identifyAttempt messageText ::
        match c.identifyEventToModify messageText events user.timezone with
        | none => [Effect.sentReply user.whatsapp_number Reply.genericProcessingError]
        | some idr =>
          if idr.confidence = Confidence.none ∨ idr.confidence = Confidence.low ∨
              truthyS idr.google_event_id = false then
            [Effect.sentReply user.whatsapp_number (Reply.chooseEventToAlter events)]
          else
            let gid := idr.google_event_id.getD ""
            let newDateTime : Option Int :=
              if truthyS idr.new_date || truthyS idr.new_time then
                match events.find? (fun e => e.google_event_id == some gid) with
                | some currentEvent =>
                  some (recomposeDateTime currentEvent.data_inicio idr.new_date idr.new_time)
                | none => none
              else none
            match newDateTime with
            | none => [Effect.sentReply user.whatsapp_number Reply.askNewDateTime]
            | some ndt =>
              Effect.calendarUpdateAttempt gid ndt ::
              (if c.updateCalendarEvent gid ndt then
                let reminderTime := ndt - 10 * msPerMinute
                (if now < reminderTime then
                  [Effect.reminderUpdateByGid gid ndt reminderTime]
                 else
                  [Effect.reminderDeleteByGid gid]) ++
                [Effect.reaction messageId "✅",
                 Effect.sentReply user.whatsapp_number (Reply.alterSuccess ndt)]
              else
                [Effect.sentReply user.whatsapp_number Reply.alterFailed])

/-- The per-event loop of the bulk-cancel branch (lines 572-591): try to
delete each event from the calendar; on success, delete its reminders and
record its title.  Returns the effects plus `(canceledCount, canceledTitles)`. -/
def runBatchCancel (c : Collaborators) : List UpcomingEvent → List Effect × (Nat × List String)
  | [] => ([], (0, []))
  | e :: rest =>
    if truthyS e.google_event_id then
      let gid := e.google_event_id.getD ""
      let tailRes := runBatchCancel c rest
      if c.deleteCalendarEvent gid then
        (Effect.calendarDeleteAttempt gid :: Effect.reminderDeleteByGid gid :: tailRes.1,
         (tailRes.2.1 + 1, e.titulo :: tailRes.2.2))
      else
        (Effect.calendarDeleteAttempt gid :: tailRes.1, tailRes.2)
    else
      runBatchCancel c rest

/-- The events targeted by a bulk cancel: the user's upcoming events
whose São Paulo calendar day matches the resolved day and which carry a
(`truthy`) external calendar id (lines 558-562). -/
def batchTargets (events : List UpcomingEvent) (day : Int × Int × Int) : List UpcomingEvent :=
  events.filter fun e =>
    decide (spDay e.data_inicio = day) && truthyS e.google_event_id

/-- Embeds `handleCancelarEvento` (lines 504-672), bulk pattern included. -/
def handleCancelarEvento (c : Collaborators) (now : Int) (user : User)
    (messageText : String) (messageId : String) : List Effect :=
  if !(truthyS user.google_access_token) || !(truthyS user.google_refresh_token) then
    [Effect.sentReply user.whatsapp_number Reply.connectGooglePrompt]
  else
    Effect.reaction messageId "⏳" ::
    match c.getUserRecentEvents user.id with
    | none => [Effect.sentReply user.whatsapp_number Reply.noUpcomingToCancel]
    | some events =>
      if events.isEmpty then
        [Effect.sentReply user.whatsapp_number Reply.noUpcomingToCancel]
      else
        let msgLower := jsToLower messageText
        let isBatchCancel := testBatchWord msgLower
        let isToday := testHoje msgLower
        let isTomorrow := testAmanha msgLower
        if isBatchCancel && (isToday || isTomorrow) then
          let targetDay := if isTomorrow then spDay (now + msPerDay) else spDay now
          let eventsToCancel := batchTargets events targetDay
          if eventsToCancel.isEmpty then
            [Effect.sentReply user.whatsapp_number (Reply.noEventsForDay isToday)]
          else
            let res := runBatchCancel c eventsToCancel
            res.1 ++
            [Effect.reaction messageId "✅",
             Effect.sentReply user.whatsapp_number
               (Reply.batchCancelReply res.2.1 res.2.2 isToday)]
        else
          Effect.identifyAttempt messageText ::
          match c.identifyEventToModify messageText events user.timezone with
          | none => [Effect.sentReply user.whatsapp_number Reply.genericProcessingError]
          | some idr =>
            if idr.confidence = Confidence.none ∨ idr.confidence = Confidence.low ∨
                truthyS idr.google_event_id = false then
              [Effect.sentReply user.whatsapp_number (Reply.chooseEventToCancel events)]
            else
              let gid := idr.google_event_id.getD ""
              let eventToCancel := events.find? fun e => e.google_event_id == some gid
              Effect.calendarDeleteAttempt gid ::
              (if c.deleteCalendarEvent gid then
                [Effect.reminderDeleteByGid gid,
                 Effect.reaction messageId "✅",
                 Effect.sentReply user.whatsapp_number
                   (Reply.cancelSuccess (eventToCancel.map (·.titulo)))]
              else
                [Effect.sentReply user.whatsapp_number Reply.cancelFailed])

/-- The classification switch of `handleIncomingMessage` (lines 132-192). -/
def classifyAndDispatch (c : Collaborators) (now : Int) (message : WhatsAppMessage)
    (user : User) (messageText : String) (isAudio : Bool) : List Effect :=
  Effect.classifyAttempt messageText ::
  match c.classifyMessage messageText user.timezone with
  | none => processScheduling c now user messageText isAudio message.id
  | some cl =>
    match cl.intent with
    | "ver_agenda" =>
      handleViewAgenda c user (cl.target_date.map c.parseLocalNoon)
    | "ajuda" => [Effect.sentReply message.from_ Reply.helpMessage]
    | "saudacao" => [Effect.sentReply message.from_ Reply.greeting]
    | "fora_do_escopo" => [Effect.sentReply message.from_ Reply.outOfScope]
    | "agendamento" => processScheduling c now user messageText isAudio message.id
    | "alterar" => handleAlterarEvento c now user messageText message.id
    | "cancelar" => handleCancelarEvento c now user messageText message.id
    | _ => processScheduling c now user messageText isAudio message.id

/-- Lines 90-130: obtain the message text (transcribing audio), or stop
with the unsupported-type notice; then classify and dispatch. -/
def messageFlow (c : Collaborators) (now : Int) (message : WhatsAppMessage)
    (user : User) : List Effect :=
  if message.type = MsgType.audio ∧ message.audio.isSome then
    let au := message.audio.getD ("", "")
    Effect.reaction message.id "🎧" ::
    Effect.downloadAttempt au.1 ::
    match c.downloadMedia au.1 with
    | none => [Effect.sentReply message.from_ Reply.audioDownloadError]
    | some bytes =>
      Effect.transcribeAttempt au.2 ::
      match c.transcribeAudio bytes au.2 with
      | none => [Effect.sentReply message.from_ Reply.transcriptionError]
      | some text => classifyAndDispatch c now message user text true
  else if message.type = MsgType.text ∧ message.text.isSome then
    classifyAndDispatch c now message user (message.text.getD "") false
  else
    [Effect.sentReply message.from_ Reply.unsupportedType]

/-- Lines 69-88: welcome for a brand-new account, then the onboarding
gate — when the account is new or onboarding-incomplete AND the Google
access token is absent, send the connect button and stop. -/
def afterUser (c : Collaborators) (now : Int) (message : WhatsAppMessage)
    (user : User) (isNewUser : Bool) : List Effect :=
  let welcome : List Effect :=
    if isNewUser then [Effect.sentReply message.from_ Reply.welcome] else []
  if isNewUser || !user.onboarding_completed then
    if !(truthyS user.google_access_token) then
      welcome ++ [Effect.sentButton message.from_]
    else
      welcome ++ messageFlow c now message user
  else
    messageFlow c now message user

/-- Embeds `handleIncomingMessage` (lines 38-200): mark as read, look up or
lazily create the account, run the onboarding gate, then process. -/
def handleIncomingMessage (c : Collaborators) (now : Int)
    (message : WhatsAppMessage) (senderName : Option String) : List Effect :=
  Effect.markAsRead message.id ::
  match c.getUser message.from_ with
  | some user => afterUser c now message user false
  | none =>
    match c.createUser message.from_ senderName with
    | none => [Effect.sentReply message.from_ Reply.registrationError]
    | some user => afterUser c now message user true

/-- Embeds `deleteRemindersByGoogleEventId` (supabase.ts lines 385-411): delete
every reminder row with the given `google_event_id`. -/
def deleteRemindersByGoogleEventId (table : ReminderTable) (gid : String) : ReminderTable :=
  table.filter fun r => !(r.google_event_id == some gid)

/-- Interpret a flow's effects as writes against the `reminders` table:
`reminderDeleteByGid` is `deleteRemindersByGoogleEventId`,
`reminderUpdateByGid` is `updateReminderByGoogleEventId`.  Insertions
(`reminderCreate`) produce storage-generated ids outside this interpreter;
no theorem below depends on them. -/
def applyEffect (table : ReminderTable) : Effect → ReminderTable
  | Effect.reminderDeleteByGid gid => deleteRemindersByGoogleEventId table gid
  | Effect.reminderUpdateByGid gid ndt rt =>
    table.map fun r =>
      if r.google_event_id == some gid then
        { r with event_datetime := ndt, reminder_time := rt }
      else r
  | _ => table

def applyEffects (table : ReminderTable) (effects : List Effect) : ReminderTable :=
  effects.foldl applyEffect table

/-- Discriminator: is this effect a `createReminder` insert? -/
def Effect.isReminderCreate : Effect → Bool
  | Effect.reminderCreate _ => true
  | _ => false

/-- Whether the bulk-cancel loop counts this event as cancelled: it has a
truthy external id and the calendar delete call succeeds. -/
def cancelOk (c : Collaborators) (e : UpcomingEvent) : Bool :=
  truthyS e.google_event_id && c.deleteCalendarEvent (e.google_event_id.getD "")

/-! ### Concrete fixtures for the closed counterexample/witness theorems -/

/-- A collaborator set in which every external call fails; individual
fixtures override the calls a scenario exercises. -/
def noopCollabs : Collaborators where
  getUser := fun _ => none
  createUser := fun _ _ => none
  downloadMedia := fun _ => none
  transcribeAudio := fun _ _ => none
  classifyMessage := fun _ _ => none
  extractEvent := fun _ _ => none
  createCalendarEvent := fun _ _ => none
  logEventId := fun _ => none
  getUserRecentEvents := fun _ => none
  identifyEventToModify := fun _ _ _ => none
  updateCalendarEvent := fun _ _ => false
  deleteCalendarEvent := fun _ => false
  listEventsForDay := fun _ _ => none
  parseLocalNoon := fun _ => 0

/-- A fully onboarded user with both Google tokens linked. -/
def linkedUser : User :=
  { id := "u1", whatsapp_number := "+5511999990000",
    google_access_token := some "at", google_refresh_token := some "rt",
    timezone := "America/Sao_Paulo", onboarding_completed := true }

/-- A just-created account: no tokens, onboarding not completed. -/
def newUserNoToken : User :=
  { id := "u8", whatsapp_number := "+5511888880000",
    google_access_token := none, google_refresh_token := none,
    timezone := "America/Sao_Paulo", onboarding_completed := false }

/-- A plain-text help request. -/
def helpMsgText : WhatsAppMessage :=
  { from_ := "+5511888880000", id := "m8", type := MsgType.text,
    text := some "ajuda", audio := none }

/-- First contact: the account lookup misses, creation succeeds with a
token-less account; the classifier would say `ajuda` if it were reached. -/
def onboardingCollabs : Collaborators :=
  { noopCollabs with
    createUser := fun _ _ => some newUserNoToken
    classifyMessage := fun _ _ => some { intent := "ajuda", target_date := none } }

/-- A timed (non-all-day) extracted event used by the calendar-failure
scenarios; its start is far in the future of the scenario clock `now = 0`. -/
def timedEvent3 : ExtractedEvent :=
  { titulo := "Reunião de equipe", data_inicio := 1000000000, data_fim := none,
    descricao := none, tipo_evento := "reuniao", all_day := false }

/-- Extraction succeeds with a timed future event, the calendar connector
fails, the log insert succeeds. -/
def calFailCollabs : Collaborators :=
  { noopCollabs with
    extractEvent := fun _ _ => some timedEvent3
    logEventId := fun _ => some "log3" }

/-- A second timed future event for the reminder-condition scenario. -/
def timedEvent7 : ExtractedEvent :=
  { titulo := "Audiência trabalhista", data_inicio := 2000000000, data_fim := none,
    descricao := none, tipo_evento := "audiencia", all_day := false }

/-- Same calendar-failure scenario, reminder-condition flavour. -/
def calFailCollabs7 : Collaborators :=
  { noopCollabs with extractEvent := fun _ _ => some timedEvent7 }

/-- Reminder-condition scenario with a SUCCESSFUL calendar creation. -/
def calOkCollabs7 : Collaborators :=
  { noopCollabs with
    extractEvent := fun _ _ => some timedEvent7
    createCalendarEvent := fun _ _ => some "gcal7" }

/-- Timed future event for the classifier-fallback scenario. -/
def timedEvent6 : ExtractedEvent :=
  { titulo := "Folha de pagamento", data_inicio := 3000000000, data_fim := none,
    descricao := none, tipo_evento := "prazo", all_day := false }

/-- Classifier fails, extraction and calendar creation succeed. -/
def fallbackCollabs : Collaborators :=
  { noopCollabs with
    getUser := fun _ => some linkedUser
    extractEvent := fun _ _ => some timedEvent6
    createCalendarEvent := fun _ _ => some "gcal6"
    logEventId := fun _ => some "log6" }

/-- A plain-text scheduling request. -/
def schedMsg : WhatsAppMessage :=
  { from_ := "+5511999990000", id := "m6", type := MsgType.text,
    text := some "Folha de pagamento dia 30", audio := none }

/-- An inbound image message (neither text nor audio payload). -/
def imageMsg : WhatsAppMessage :=
  { from_ := "+5511999990000", id := "m10", type := MsgType.image,
    text := none, audio := none }

/-- A freshly created account whose stored record already carries the
Google tokens (onboarding not yet complete). -/
def newLinkedUser : User :=
  { id := "u11", whatsapp_number := "+5511777770000",
    google_access_token := some "at2", google_refresh_token := some "rt2",
    timezone := "America/Sao_Paulo", onboarding_completed := false }

/-- First contact from that account: lookup misses, creation succeeds. -/
def lazyCreateCollabs : Collaborators :=
  { noopCollabs with createUser := fun _ _ => some newLinkedUser }

/-- An image message sent as that account's first contact. -/
def imageMsgNew : WhatsAppMessage :=
  { from_ := "+5511777770000", id := "m11", type := MsgType.image,
    text := none, audio := none }

/-- An image message sent as first contact by the token-less account. -/
def imageMsgGate : WhatsAppMessage :=
  { from_ := "+5511888880000", id := "m10c", type := MsgType.image,
    text := none, audio := none }

/-- Known linked account, nothing else needed. -/
def lookupOnlyCollabs : Collaborators :=
  { noopCollabs with getUser := fun _ => some linkedUser }

/-- Three upcoming events on the same São Paulo day (instants `0`,
`3600000`, `7200000` all fall on 1969-12-31 in São Paulo). -/
def batchEvents : List UpcomingEvent :=
  [ { id := "e1", titulo := "Reunião A", tipo_evento := "reuniao",
      data_inicio := 0, google_event_id := some "g1" },
    { id := "e2", titulo := "Reunião B", tipo_evento := "reuniao",
      data_inicio := 3600000, google_event_id := some "g2" },
    { id := "e3", titulo := "Audiência C", tipo_evento := "audiencia",
      data_inicio := 7200000, google_event_id := some "g3" } ]

/-- Bulk-cancel scenario: three same-day events, the connector deletes
`g1`/`g2` but fails on `g3`. -/
def batchCollabs : Collaborators :=
  { noopCollabs with
    getUserRecentEvents := fun _ => some batchEvents
    deleteCalendarEvent := fun g => !(g == "g3") }

/-- The reminders of the three batch events, all unsent. -/
def batchTable : ReminderTable :=
  [ { id := 1, google_event_id := some "g1", whatsapp_number := some "+5511999990000",
      event_title := "Reunião A", event_datetime := 0, reminder_time := -600000, sent := false },
    { id := 2, google_event_id := some "g2", whatsapp_number := some "+5511999990000",
      event_title := "Reunião B", event_datetime := 3600000, reminder_time := 3000000, sent := false },
    { id := 3, google_event_id := some "g3", whatsapp_number := some "+5511999990000",
      event_title := "Audiência C", event_datetime := 7200000, reminder_time := 6600000, sent := false } ]

/-- A fixed 64-character hex digest standing in for the HMAC output. -/
def digest64 : String :=
  "aaaaaaaaaaaaaaaaaaaaaaaaaaaaaaaaaaaaaaaaaaaaaaaaaaaaaaaaaaaaaaaa"

/-- A well-formed but wrong signature header of the correct length. -/
def wrongSig64 : String :=
  "sha256=bbbbbbbbbbbbbbbbbbbbbbbbbbbbbbbbbbbbbbbbbbbbbbbbbbbbbbbbbbbbbbbb"

/-! ## Theorems -/

/-- C1: the claim says a mark-as-sent attempt on an already-sent reminder
is reported as a conflict, making two overlapping dispatcher cycles
deliver exactly one message.  The code's `markReminderAsSent` is an
unconditional update that reports success either way, so two cycles that
both fetched the same pending reminder both deliver it: the delivered
count is 2, not 1.  With the spec's guarded (compare-and-set) mark, the
count is 1.  This contradicts the dispatcher's own comments, which expect
the second mark to fail and be skipped. -/
theorem processReminders_overlap_double_delivery :
    (twoOverlappingCycles markReminderAsSent
      [⟨1, some "g1", some "+5511999990000", "Reunião", 1000000, 400000, false⟩]
      500000).2.length = 2
    ∧ (twoOverlappingCycles markReminderAsSentGuarded
      [⟨1, some "g1", some "+5511999990000", "Reunião", 1000000, 400000, false⟩]
      500000).2.length = 1 := by
  decide

/-- C9 counterexample: with a secret configured and a claimed signature
whose length differs from the 64-character hex digest, verification does
not return a boolean: `crypto.timingSafeEqual` throws
`ERR_CRYPTO_TIMING_SAFE_EQUAL_LENGTH`. -/
theorem validateWhatsAppSignature_throws_on_length_mismatch :
    validateWhatsAppSignature (some "app-secret")
      (fun _ _ => "aaaaaaaaaaaaaaaaaaaaaaaaaaaaaaaaaaaaaaaaaaaaaaaaaaaaaaaaaaaaaaaa")
      "rawbody" (some "sha256=abc")
    = Except.error "ERR_CRYPTO_TIMING_SAFE_EQUAL_LENGTH" := by
  rfl

/-- C8 counterexample: a brand-new account with no credentials sends the
credential-independent message `ajuda`; the orchestrator still sends the
setup prompt and halts — the help message is never processed. -/
theorem onboarding_gate_blocks_help :
    handleIncomingMessage onboardingCollabs 0 helpMsgText (some "Ana") =
      [Effect.markAsRead "m8",
       Effect.sentReply "+5511888880000" Reply.welcome,
       Effect.sentButton "+5511888880000"]
    ∧ Effect.sentReply "+5511888880000" Reply.helpMessage ∉
        handleIncomingMessage onboardingCollabs 0 helpMsgText (some "Ana") := by
  decide

/-- Case split of the onboarding gate, shared by the theorems below. -/
lemma afterUser_cases (c : Collaborators) (now : Int) (message : WhatsAppMessage)
    (user : User) (isNewUser : Bool) :
    afterUser c now message user isNewUser =
      (if isNewUser then [Effect.sentReply message.from_ Reply.welcome] else []) ++
      (if (isNewUser || !user.onboarding_completed) && !(truthyS user.google_access_token)
        then [Effect.sentButton message.from_]
        else messageFlow c now message user) := by
  cases isNewUser <;>
    cases hO : user.onboarding_completed <;>
      cases hT : truthyS user.google_access_token <;>
        simp [afterUser, hO, hT]

/-- C8 (amended): the onboarding gate sends the welcome exactly for new
accounts, and halts with the Google-connect button exactly when the
account is new or onboarding-incomplete AND its Google access token is
absent — unconditionally in the message content, with no
credential-independent exemption; otherwise the flow continues into
normal message processing. -/
theorem afterUser_gate (c : Collaborators) (now : Int) (message : WhatsAppMessage)
    (user : User) (isNewUser : Bool) :
    afterUser c now message user isNewUser =
      (if isNewUser then [Effect.sentReply message.from_ Reply.welcome] else []) ++
      (if (isNewUser || !user.onboarding_completed) && !(truthyS user.google_access_token)
        then [Effect.sentButton message.from_]
        else messageFlow c now message user) :=
  afterUser_cases c now message user isNewUser

/-- C9 (amended): signature verification is a boolean gate — passing
everything when no secret is configured, failing a missing header, and,
PROVIDED the claimed signature (after stripping the first `sha256=`) has
the same byte length as the recomputed hex digest, returning exactly the
equality of the two; a `false` verification is rejected by the middleware
with a 401.  (Totality fails on length mismatch, see the
counterexample.) -/
theorem validateWhatsAppSignature_spec
    (hmac : String → String → String) (payload : String) :
    (∀ sig : Option String,
      validateWhatsAppSignature none hmac payload sig = Except.ok true)
    ∧ (∀ secret,
      validateWhatsAppSignature (some secret) hmac payload none = Except.ok false)
    ∧ (∀ secret sig,
        (removeFirst sig "sha256=").utf8ByteSize = (hmac secret payload).utf8ByteSize →
        validateWhatsAppSignature (some secret) hmac payload (some sig) =
          Except.ok (removeFirst sig "sha256=" == hmac secret payload))
    ∧ (∀ (appSecret sigHeader : Option String),
        validateWhatsAppSignature appSecret hmac payload sigHeader = Except.ok false →
        whatsappSignatureMiddleware appSecret hmac "POST" payload sigHeader =
          GateOutcome.unauthorized) := by
  refine ⟨fun _ => rfl, fun _ => rfl, ?_, ?_⟩
  · intro secret sig h
    simp [validateWhatsAppSignature, timingSafeEqual, h]
  · intro appSecret sigHeader h
    simp [whatsappSignatureMiddleware, h]

/-- C9 witness: a same-length wrong signature is rejected with 401 by the
middleware, and with no secret configured everything passes. -/
theorem validateWhatsAppSignature_spec_witness :
    whatsappSignatureMiddleware (some "s") (fun _ _ => digest64) "POST" "body"
      (some wrongSig64) = GateOutcome.unauthorized
    ∧ validateWhatsAppSignature none (fun _ _ => digest64) "body"
        (some "anything") = Except.ok true := by
  have h := validateWhatsAppSignature_spec (fun _ _ => digest64) "body"
  exact ⟨h.2.2.2 (some "s") (some wrongSig64) (by rfl), h.1 (some "anything")⟩

lemma truthyS_none : truthyS none = false := rfl

lemma truthyS_some (s : String) : truthyS (some s) = !s.isEmpty := rfl

lemma storeGet_storeSet_self (s : RateLimitStore) (k : String) (e : RateLimitEntry) :
    storeGet (storeSet s k e) k = some e := by
  induction s with
  | nil => simp [storeSet, storeGet]
  | cons p rest ih =>
    obtain ⟨k', e'⟩ := p
    by_cases h : k' = k <;> simp [storeSet, storeGet, h, ih]

lemma mem_storeSet (s : RateLimitStore) (k : String) (e : RateLimitEntry) :
    ∀ p ∈ storeSet s k e, p = (k, e) ∨ p ∈ s := by
  induction s with
  | nil => simp [storeSet]
  | cons q rest ih =>
    obtain ⟨k', e'⟩ := q
    by_cases h : k' = k
    · intro p hp
      simp [storeSet, h] at hp
      rcases hp with hp | hp
      · exact Or.inl (by simp [hp])
      · exact Or.inr (by simp [hp])
    · intro p hp
      simp only [storeSet, if_neg h, List.mem_cons] at hp
      rcases hp with hp | hp
      · exact Or.inr (by simp [hp])
      · rcases ih p hp with h' | h'
        · exact Or.inl h'
        · exact Or.inr (by simp [h'])

/-- The count invariant: one `checkRateLimit` step never pushes any
per-key count past the ceiling. -/
lemma checkRateLimit_count_le (s : RateLimitStore) (k : String) (now : Nat)
    (hs : ∀ p ∈ s, p.2.count ≤ RATE_LIMIT_MAX_REQUESTS) :
    ∀ p ∈ (checkRateLimit s k now).2, p.2.count ≤ RATE_LIMIT_MAX_REQUESTS := by
  intro p hp
  unfold checkRateLimit at hp
  cases hg : storeGet s k with
  | none =>
    rw [hg] at hp
    dsimp only at hp
    rcases mem_storeSet _ _ _ p hp with h | h
    · simp [h, RATE_LIMIT_MAX_REQUESTS]
    · exact hs p h
  | some entry =>
    rw [hg] at hp
    dsimp only at hp
    by_cases h1 : RATE_LIMIT_WINDOW_MS < now - entry.firstRequest
    · rw [if_pos h1] at hp
      rcases mem_storeSet _ _ _ p hp with h | h
      · simp [h, RATE_LIMIT_MAX_REQUESTS]
      · exact hs p h
    · rw [if_neg h1] at hp
      by_cases h2 : RATE_LIMIT_MAX_REQUESTS ≤ entry.count
      · rw [if_pos h2] at hp
        exact hs p hp
      · rw [if_neg h2] at hp
        rcases mem_storeSet _ _ _ p hp with h | h
        · rw [h]
          simp only [RATE_LIMIT_MAX_REQUESTS] at h2 ⊢
          omega
        · exact hs p h

/-- Behaviour of a run of same-window requests for one key, starting from
a store whose entry for the key is `(c, t₀)`. -/
lemma runKey_window (key : String) (t₀ : Nat) :
    ∀ (ts : List Nat), (∀ u ∈ ts, u - t₀ ≤ RATE_LIMIT_WINDOW_MS) →
    ∀ (c : Nat) (s : RateLimitStore), 1 ≤ c → c ≤ 30 →
      storeGet s key = some ⟨c, t₀⟩ →
      storeGet (runKey s key ts).2 key = some ⟨min (c + ts.length) 30, t₀⟩ ∧
      (∀ i, i < ts.length →
        (runKey s key ts).1.get? i =
          some (if c + i < 30 then (true, 29 - (c + i)) else (false, 0))) := by
  intro ts
  induction ts with
  | nil =>
    intro _ c s hc1 hc30 hs
    refine ⟨?_, ?_⟩
    · simpa [runKey, Nat.min_eq_left hc30] using hs
    · intro i hi
      simp at hi
  | cons t ts' ih =>
    intro hwin c s hc1 hc30 hs
    have hwt : t - t₀ ≤ RATE_LIMIT_WINDOW_MS := hwin t (by simp)
    have hwin' : ∀ u ∈ ts', u - t₀ ≤ RATE_LIMIT_WINDOW_MS :=
      fun u hu => hwin u (by simp [hu])
    by_cases hfull : 30 ≤ c
    · have hceq : c = 30 := le_antisymm hc30 hfull
      subst hceq
      have hstep : checkRateLimit s key t = ((false, 0), s) := by
        unfold checkRateLimit
        rw [hs]
        dsimp only
        rw [if_neg (by omega), if_pos (by simp [RATE_LIMIT_MAX_REQUESTS])]
      obtain ⟨ihA, ihB⟩ := ih hwin' 30 s (by omega) (le_refl 30) hs
      refine ⟨?_, ?_⟩
      · show storeGet (runKey s key (t :: ts')).2 key = _
        rw [runKey, hstep]
        simp only []
        rw [ihA]
        have hlen : (t :: ts').length = ts'.length + 1 := by simp
        rw [hlen]
        congr 2
        omega
      · intro i hi
        match i with
        | 0 =>
          rw [runKey, hstep]
          simp
        | Nat.succ j =>
          rw [runKey, hstep]
          simp only [List.get?]
          rw [ihB j (by simpa using hi)]
          congr 1
          have h1 : ¬ (30 + j < 30) := by omega
          have h2 : ¬ (30 + (j + 1) < 30) := by omega
          rw [if_neg h1, if_neg h2]
    · have hstep : checkRateLimit s key t =
          ((true, 29 - c), storeSet s key ⟨c + 1, t₀⟩) := by
        unfold checkRateLimit
        rw [hs]
        dsimp only
        rw [if_neg (by omega),
          if_neg (by simp only [RATE_LIMIT_MAX_REQUESTS]; omega)]
        congr 2
        simp only [RATE_LIMIT_MAX_REQUESTS]
        omega
      obtain ⟨ihA, ihB⟩ := ih hwin' (c + 1) (storeSet s key ⟨c + 1, t₀⟩)
        (by omega) (by omega) (storeGet_storeSet_self s key _)
      refine ⟨?_, ?_⟩
      · rw [runKey, hstep]
        simp only []
        rw [ihA]
        have hlen : (t :: ts').length = ts'.length + 1 := by simp
        rw [hlen]
        congr 2
        omega
      · intro i hi
        match i with
        | 0 =>
          rw [runKey, hstep]
          simp only [List.get?]
          rw [if_pos (by omega)]
          norm_num
        | Nat.succ j =>
          rw [runKey, hstep]
          simp only [List.get?]
          rw [ihB j (by simpa using hi)]
          congr 1
          have : c + 1 + j = c + (j + 1) := by omega
          rw [this]

/-- C2: for every rate-limit key and any sequence of requests inside one
60-second window, the first 30 are allowed (the 30th with remaining 0),
every later request in the window is rejected with remaining 0; once the
window has elapsed for that key, a request is allowed again (remaining
29); and no per-key count ever exceeds the ceiling of 30. -/
theorem checkRateLimit_window_spec (key : String) (t₀ : Nat) (ts : List Nat)
    (hin : ∀ u ∈ ts, u - t₀ ≤ RATE_LIMIT_WINDOW_MS)
    (t' : Nat) (hout : RATE_LIMIT_WINDOW_MS < t' - t₀) :
    (∀ i, i < ts.length + 1 →
      (runKey [] key (t₀ :: ts)).1.get? i =
        some (if i < 30 then (true, 29 - i) else (false, 0)))
    ∧ (checkRateLimit (runKey [] key (t₀ :: ts)).2 key t').1 = (true, 29)
    ∧ (∀ (s : RateLimitStore) (k : String) (now : Nat),
        (∀ p ∈ s, p.2.count ≤ RATE_LIMIT_MAX_REQUESTS) →
        ∀ p ∈ (checkRateLimit s k now).2, p.2.count ≤ RATE_LIMIT_MAX_REQUESTS) := by
  have hstep0 : checkRateLimit [] key t₀ = ((true, 29), [(key, ⟨1, t₀⟩)]) := by
    unfold checkRateLimit
    simp [storeGet, storeSet, RATE_LIMIT_MAX_REQUESTS]
  have hget1 : storeGet [(key, (⟨1, t₀⟩ : RateLimitEntry))] key = some ⟨1, t₀⟩ := by
    simp [storeGet]
  obtain ⟨hA, hB⟩ := runKey_window key t₀ ts hin 1 _ (le_refl 1) (by omega) hget1
  refine ⟨?_, ?_, fun s k now hs => checkRateLimit_count_le s k now hs⟩
  · intro i hi
    match i with
    | 0 =>
      rw [runKey, hstep0]
      simp
    | Nat.succ j =>
      rw [runKey, hstep0]
      simp only [List.get?]
      rw [hB j (by omega)]
      congr 1
      have : 1 + j = j + 1 := by omega
      rw [this]
  · rw [runKey, hstep0]
    simp only []
    unfold checkRateLimit
    rw [hA]
    dsimp only
    rw [if_pos (by omega)]
    rfl

/-- C2 witness: 31 requests at times 0, then 30 more at 60000 (all inside
the window): the 30th is allowed with remaining 0, the 31st rejected with
remaining 0, and a request at 60001 (window elapsed) is allowed again. -/
theorem checkRateLimit_window_spec_witness :
    (runKey [] "ip1" (0 :: List.replicate 30 60000)).1.get? 29 = some (true, 0)
    ∧ (runKey [] "ip1" (0 :: List.replicate 30 60000)).1.get? 30 = some (false, 0)
    ∧ (checkRateLimit (runKey [] "ip1" (0 :: List.replicate 30 60000)).2 "ip1" 60001).1
        = (true, 29) := by
  have h := checkRateLimit_window_spec "ip1" 0 (List.replicate 30 60000)
    (by decide) 60001 (by decide)
  refine ⟨?_, ?_, h.2.1⟩
  · have := h.1 29 (by decide)
    simpa using this
  · have := h.1 30 (by decide)
    simpa using this

lemma spWallClock_bounds (t : Int) :
    0 ≤ (spWallClock t).hour ∧ (spWallClock t).hour < 24 ∧
    0 ≤ (spWallClock t).minute ∧ (spWallClock t).minute < 60 := by
  simp only [spWallClock, msPerDay, msPerHour, msPerMinute, spOffsetHours]
  refine ⟨?_, ?_, ?_, ?_⟩ <;> omega

/-- Re-encoding a São Paulo wall-clock hour/minute (plus any whole number
of days) yields an instant whose São Paulo hour/minute are that hour and
minute. -/
lemma spWallClock_encode (K h m : Int) (hh0 : 0 ≤ h) (hh : h < 24)
    (hm0 : 0 ≤ m) (hm : m < 60) :
    (spWallClock (K * msPerDay + (h - spOffsetHours) * msPerHour + m * msPerMinute)).hour = h ∧
    (spWallClock (K * msPerDay + (h - spOffsetHours) * msPerHour + m * msPerMinute)).minute = m := by
  simp only [spWallClock, msPerDay, msPerHour, msPerMinute, spOffsetHours]
  constructor <;> omega

/-- C4: when the resolver supplies only a new date (any string, parsed as
the code parses it) and no new time, the recomposed instant has the same
São Paulo wall-clock hour and minute as the original event start: the
time-of-day component is preserved, never blindly overwritten. -/
theorem recomposeDateTime_preserves_time (t : Int) (nd : String) :
    (spWallClock (recomposeDateTime t (some nd) none)).hour = (spWallClock t).hour ∧
    (spWallClock (recomposeDateTime t (some nd) none)).minute = (spWallClock t).minute := by
  have hb := spWallClock_bounds t
  unfold recomposeDateTime dateUTC
  dsimp only
  exact spWallClock_encode _ _ _ hb.1 hb.2.1 hb.2.2.1 hb.2.2.2

/-- C3 counterexample: extraction succeeds with a timed event whose fire
instant is in the future, the calendar call fails — the log record is
still written (without an external ref, status `created`) and the flow
completes, but NO `createReminder` call happens, although the claim says
reminder creation is not blocked by the calendar failure. -/
theorem processScheduling_calendar_failure_counterexample :
    processScheduling calFailCollabs 0 linkedUser "reunião amanhã" false "m3" =
      [Effect.reaction "m3" "⏳",
       Effect.extractAttempt "reunião amanhã",
       Effect.calendarCreateAttempt timedEvent3,
       Effect.logWrite
         { user_id := "u1", titulo := "Reunião de equipe", tipo_evento := "reuniao",
           data_inicio := 1000000000, data_fim := none, descricao := none,
           google_event_id := none, mensagem_original := "reunião amanhã",
           foi_audio := false, status := "created" },
       Effect.reaction "m3" "✅",
       Effect.sentReply "+5511999990000" (Reply.confirmation timedEvent3)]
    ∧ timedEvent3.all_day = false
    ∧ (0 : Int) < timedEvent3.data_inicio - 10 * msPerMinute := by
  decide

/-- C3 (amended): a calendar-connector failure does not block the
EventLogRecord — it is still written, with no external event ref and
status `created`, and the flow still confirms to the user — but it DOES
block the ReminderRecord: no reminder is created when the calendar call
fails (reminder creation is gated on calendar success). -/
theorem processScheduling_calendar_failure (c : Collaborators) (now : Int)
    (user : User) (msg : String) (isAudio : Bool) (mid : String) (ev : ExtractedEvent)
    (hat : truthyS user.google_access_token = true)
    (hrt : truthyS user.google_refresh_token = true)
    (hex : c.extractEvent msg user.timezone = some ev)
    (hcal : c.createCalendarEvent user ev = none) :
    processScheduling c now user msg isAudio mid =
      [Effect.reaction mid "⏳", Effect.extractAttempt msg,
       Effect.calendarCreateAttempt ev,
       Effect.logWrite
         { user_id := user.id, titulo := ev.titulo, tipo_evento := ev.tipo_evento,
           data_inicio := ev.data_inicio, data_fim := ev.data_fim,
           descricao := ev.descricao, google_event_id := none,
           mensagem_original := msg, foi_audio := isAudio, status := "created" },
       Effect.reaction mid "✅",
       Effect.sentReply user.whatsapp_number (Reply.confirmation ev)] := by
  simp [processScheduling, hat, hrt, hex, hcal, truthyS_none]

/-- C3 witness: the amended theorem applied to the concrete
calendar-failure scenario. -/
theorem processScheduling_calendar_failure_witness :
    processScheduling calFailCollabs 0 linkedUser "reunião amanhã" false "m3w" =
      [Effect.reaction "m3w" "⏳", Effect.extractAttempt "reunião amanhã",
       Effect.calendarCreateAttempt timedEvent3,
       Effect.logWrite
         { user_id := "u1", titulo := "Reunião de equipe", tipo_evento := "reuniao",
           data_inicio := 1000000000, data_fim := none, descricao := none,
           google_event_id := none, mensagem_original := "reunião amanhã",
           foi_audio := false, status := "created" },
       Effect.reaction "m3w" "✅",
       Effect.sentReply "+5511999990000" (Reply.confirmation timedEvent3)] :=
  processScheduling_calendar_failure calFailCollabs 0 linkedUser "reunião amanhã"
    false "m3w" timedEvent3 rfl rfl rfl rfl

/-- C7 counterexample: a non-all-day event with a future fire instant —
the claim's condition for a reminder — yet no reminder is created,
because the calendar creation failed. -/
theorem processScheduling_reminder_counterexample :
    (processScheduling calFailCollabs7 0 linkedUser "audiência dia 20" false "m7").filter
        Effect.isReminderCreate = []
    ∧ timedEvent7.all_day = false
    ∧ (0 : Int) < timedEvent7.data_inicio - 10 * msPerMinute := by
  decide

/-- C7 (amended): in the Schedule flow a ReminderRecord is created
exactly when the calendar creation succeeded (truthy external id) AND the
event is not all-day AND its fire instant (start minus the fixed
10-minute lead) is still in the future; in particular an all-day event
(date-only message) never gets a timed reminder. -/
theorem processScheduling_reminder_iff (c : Collaborators) (now : Int)
    (user : User) (msg : String) (isAudio : Bool) (mid : String) (ev : ExtractedEvent)
    (hat : truthyS user.google_access_token = true)
    (hrt : truthyS user.google_refresh_token = true)
    (hex : c.extractEvent msg user.timezone = some ev) :
    (processScheduling c now user msg isAudio mid).filter Effect.isReminderCreate ≠ []
      ↔ (truthyS (c.createCalendarEvent user ev) = true ∧ ev.all_day = false ∧
          now < ev.data_inicio - 10 * msPerMinute) := by
  simp only [processScheduling, hat, hrt, hex]
  by_cases hg : truthyS (c.createCalendarEvent user ev) = true
  · by_cases had : ev.all_day
    · simp [hg, had, List.filter, Effect.isReminderCreate]
    · have had' : ev.all_day = false := by revert had; cases ev.all_day <;> simp
      by_cases hfut : now < ev.data_inicio - 10 * msPerMinute
      · simp [hg, had', hfut, List.filter, Effect.isReminderCreate]
      · simp [hg, had', hfut, List.filter, Effect.isReminderCreate]
  · have hg' : truthyS (c.createCalendarEvent user ev) = false := by
      revert hg; cases truthyS (c.createCalendarEvent user ev) <;> simp
    simp [hg', List.filter, Effect.isReminderCreate]

/-- C7 witness: with a successful calendar creation, a non-all-day
future-fire event does get its reminder. -/
theorem processScheduling_reminder_iff_witness :
    (processScheduling calOkCollabs7 0 linkedUser "audiência dia 20" false "m7w").filter
        Effect.isReminderCreate ≠ [] :=
  (processScheduling_reminder_iff calOkCollabs7 0 linkedUser "audiência dia 20"
    false "m7w" timedEvent7 rfl rfl rfl).mpr (by decide)

/-- C10 counterexample: an unsupported-payload (image) message sent as
first contact by a token-less account — a lazy creation occurs, but the
onboarding gate halts the message with the welcome and the Google-connect
button: the unsupported-type notice is never sent, contradicting the
claim's "for every inbound message whose payload type is neither text nor
audio". -/
theorem handleIncomingMessage_unsupported_type_gate_counterexample :
    handleIncomingMessage onboardingCollabs 0 imageMsgGate (some "Ana") =
      [Effect.markAsRead "m10c",
       Effect.sentReply "+5511888880000" Reply.welcome,
       Effect.sentButton "+5511888880000"]
    ∧ Effect.sentReply "+5511888880000" Reply.unsupportedType ∉
        handleIncomingMessage onboardingCollabs 0 imageMsgGate (some "Ana") := by
  decide

/-- C10 (amended): for a message whose payload is neither a text object
nor an audio object AND which passes the onboarding gate, the flow stops
at the unsupported-type notice with no transcription, classification,
extraction, calendar call, log record or reminder: for a known account
passing the gate (onboarded, or holding a Google token) the whole trace
is exactly mark-as-read then the notice; for a lazily created account
whose record holds a Google token it is mark-as-read, the welcome, then
the notice.  (A new or not-onboarded token-less account is instead halted
by the onboarding gate with the Google-connect prompt and never receives
the notice — see the counterexample.) -/
theorem handleIncomingMessage_unsupported_type (c : Collaborators) (now : Int)
    (message : WhatsAppMessage) (senderName : Option String) (user : User)
    (haud : ¬(message.type = MsgType.audio ∧ message.audio.isSome = true))
    (htxt : ¬(message.type = MsgType.text ∧ message.text.isSome = true)) :
    (c.getUser message.from_ = some user →
      (user.onboarding_completed = true ∨ truthyS user.google_access_token = true) →
      handleIncomingMessage c now message senderName =
        [Effect.markAsRead message.id,
         Effect.sentReply message.from_ Reply.unsupportedType])
    ∧ (c.getUser message.from_ = none →
      c.createUser message.from_ senderName = some user →
      truthyS user.google_access_token = true →
      handleIncomingMessage c now message senderName =
        [Effect.markAsRead message.id,
         Effect.sentReply message.from_ Reply.welcome,
         Effect.sentReply message.from_ Reply.unsupportedType]) := by
  have hflow : ∀ u : User, messageFlow c now message u =
      [Effect.sentReply message.from_ Reply.unsupportedType] := by
    intro u
    unfold messageFlow
    rw [if_neg haud, if_neg htxt]
  constructor
  · intro hg hpass
    unfold handleIncomingMessage
    rw [hg]
    dsimp only
    rw [afterUser_cases]
    rcases hpass with h | h
    · simp [h, hflow]
    · simp [h, hflow]
  · intro hnone hcreate htok
    unfold handleIncomingMessage
    rw [hnone]
    dsimp only
    rw [hcreate]
    dsimp only
    rw [afterUser_cases]
    simp [htok, hflow]

/-- C10 witness: an image message from a linked known account yields
exactly mark-as-read plus the notice; an image message as first contact
of a token-holding account yields mark-as-read, welcome, notice. -/
theorem handleIncomingMessage_unsupported_type_witness :
    handleIncomingMessage lookupOnlyCollabs 0 imageMsg none =
      [Effect.markAsRead "m10",
       Effect.sentReply "+5511999990000" Reply.unsupportedType]
    ∧ handleIncomingMessage lazyCreateCollabs 0 imageMsgNew (some "Ana") =
      [Effect.markAsRead "m11",
       Effect.sentReply "+5511777770000" Reply.welcome,
       Effect.sentReply "+5511777770000" Reply.unsupportedType] := by
  refine ⟨?_, ?_⟩
  · exact (handleIncomingMessage_unsupported_type lookupOnlyCollabs 0 imageMsg
      none linkedUser (by decide) (by decide)).1 rfl (Or.inl rfl)
  · exact (handleIncomingMessage_unsupported_type lazyCreateCollabs 0 imageMsgNew
      (some "Ana") newLinkedUser (by decide) (by decide)).2 rfl rfl rfl

/-- C6: when the intent classifier fails, the orchestrator does not abort
the message: the flow equals the classify attempt followed by the whole
scheduling path, and when extraction finds a date the create flow
completes — the log record is written and the confirmation is sent. -/
theorem handleIncomingMessage_classifier_fallback (c : Collaborators) (now : Int)
    (message : WhatsAppMessage) (senderName : Option String) (user : User)
    (body : String) (ev : ExtractedEvent)
    (hg : c.getUser message.from_ = some user)
    (honb : user.onboarding_completed = true)
    (htype : message.type = MsgType.text)
    (htext : message.text = some body)
    (hat : truthyS user.google_access_token = true)
    (hrt : truthyS user.google_refresh_token = true)
    (hcl : c.classifyMessage body user.timezone = none)
    (hex : c.extractEvent body user.timezone = some ev) :
    handleIncomingMessage c now message senderName =
      Effect.markAsRead message.id :: Effect.classifyAttempt body ::
        processScheduling c now user body false message.id
    ∧ Effect.sentReply user.whatsapp_number (Reply.confirmation ev) ∈
        handleIncomingMessage c now message senderName
    ∧ Effect.logWrite
        { user_id := user.id, titulo := ev.titulo, tipo_evento := ev.tipo_evento,
          data_inicio := ev.data_inicio, data_fim := ev.data_fim,
          descricao := ev.descricao,
          google_event_id := c.createCalendarEvent user ev,
          mensagem_original := body, foi_audio := false,
          status := if truthyS (c.createCalendarEvent user ev) then "synced_google"
                    else "created" } ∈
        handleIncomingMessage c now message senderName := by
  have htrace : handleIncomingMessage c now message senderName =
      Effect.markAsRead message.id :: Effect.classifyAttempt body ::
        processScheduling c now user body false message.id := by
    unfold handleIncomingMessage
    rw [hg]
    dsimp only
    rw [afterUser_cases]
    simp [honb, messageFlow, htype, htext, classifyAndDispatch, hcl]
  refine ⟨htrace, ?_, ?_⟩
  · rw [htrace]
    simp [processScheduling, hat, hrt, hex]
  · rw [htrace]
    simp [processScheduling, hat, hrt, hex]

/-- C6 witness: classifier failure on a dated text with a linked account —
the confirmation of the extracted event is sent. -/
theorem handleIncomingMessage_classifier_fallback_witness :
    Effect.sentReply "+5511999990000" (Reply.confirmation timedEvent6) ∈
      handleIncomingMessage fallbackCollabs 0 schedMsg none :=
  (handleIncomingMessage_classifier_fallback fallbackCollabs 0 schedMsg none
    linkedUser "Folha de pagamento dia 30" timedEvent6
    rfl rfl rfl rfl rfl rfl rfl rfl).2.1

lemma applyEffect_reaction (t : ReminderTable) (mid emoji : String) :
    applyEffect t (Effect.reaction mid emoji) = t := rfl

lemma applyEffect_sentReply (t : ReminderTable) (to_ : String) (r : Reply) :
    applyEffect t (Effect.sentReply to_ r) = t := rfl

lemma runBatchCancel_counts (c : Collaborators) (l : List UpcomingEvent) :
    (runBatchCancel c l).2.1 = (l.filter (cancelOk c)).length ∧
    (runBatchCancel c l).2.2 = (l.filter (cancelOk c)).map (fun e => e.titulo) := by
  induction l with
  | nil => simp [runBatchCancel]
  | cons e rest ih =>
    by_cases ht : truthyS e.google_event_id = true
    · by_cases hd : c.deleteCalendarEvent (e.google_event_id.getD "") = true
      · simp [runBatchCancel, ht, hd, cancelOk, List.filter_cons, ih.1, ih.2]
      · have hd' : c.deleteCalendarEvent (e.google_event_id.getD "") = false := by
          revert hd; cases c.deleteCalendarEvent (e.google_event_id.getD "") <;> simp
        simp [runBatchCancel, ht, hd', cancelOk, List.filter_cons, ih.1, ih.2]
    · have ht' : truthyS e.google_event_id = false := by
        revert ht; cases truthyS e.google_event_id <;> simp
      simp [runBatchCancel, ht', cancelOk, List.filter_cons, ih.1, ih.2]

lemma filter_deleteReminders_ne (table : ReminderTable) (g g' : String) (h : g' ≠ g) :
    (deleteRemindersByGoogleEventId table g').filter
        (fun r => r.google_event_id == some g) =
      table.filter (fun r => r.google_event_id == some g) := by
  unfold deleteRemindersByGoogleEventId
  induction table with
  | nil => rfl
  | cons r rest ih =>
    by_cases hr : r.google_event_id = some g
    · have h1 : (r.google_event_id == some g') = false := by
        rw [hr]
        simp only [beq_eq_false_iff_ne, ne_eq, Option.some.injEq]
        exact fun hh => h hh.symm
      have h2 : (r.google_event_id == some g) = true := by
        rw [hr]; simp
      simp [List.filter_cons, h1, h2, ih]
    · have h2 : (r.google_event_id == some g) = false := by
        simp only [beq_eq_false_iff_ne, ne_eq]
        exact hr
      by_cases h1 : (r.google_event_id == some g') = true
      · simp [List.filter_cons, h1, h2, ih]
      · have h1' : (r.google_event_id == some g') = false := by
          revert h1; cases r.google_event_id == some g' <;> simp
        simp [List.filter_cons, h1', h2, ih]

/-- Reminders of an event whose calendar delete fails are untouched by
the whole bulk-cancel effect sequence. -/
lemma applyEffects_batch_preserves (c : Collaborators) (g : String)
    (hg : c.deleteCalendarEvent g = false) :
    ∀ (l : List UpcomingEvent) (table : ReminderTable),
      (applyEffects table (runBatchCancel c l).1).filter
          (fun r => r.google_event_id == some g) =
        table.filter (fun r => r.google_event_id == some g) := by
  intro l
  induction l with
  | nil => intro table; simp [runBatchCancel, applyEffects]
  | cons e rest ih =>
    intro table
    by_cases ht : truthyS e.google_event_id = true
    · by_cases hd : c.deleteCalendarEvent (e.google_event_id.getD "") = true
      · have hne : e.google_event_id.getD "" ≠ g := by
          intro hh
          rw [hh, hg] at hd
          exact Bool.false_ne_true hd
        simp only [runBatchCancel, ht, hd, if_pos, if_true]
        show (applyEffects table
            (Effect.calendarDeleteAttempt (e.google_event_id.getD "") ::
             Effect.reminderDeleteByGid (e.google_event_id.getD "") ::
             (runBatchCancel c rest).1)).filter _ = _
        unfold applyEffects
        simp only [List.foldl_cons]
        have hstep : applyEffect (applyEffect table
            (Effect.calendarDeleteAttempt (e.google_event_id.getD "")))
            (Effect.reminderDeleteByGid (e.google_event_id.getD "")) =
            deleteRemindersByGoogleEventId table (e.google_event_id.getD "") := rfl
        rw [hstep]
        have := ih (deleteRemindersByGoogleEventId table (e.google_event_id.getD ""))
        unfold applyEffects at this
        rw [this]
        exact filter_deleteReminders_ne table g (e.google_event_id.getD "") hne
      · have hd' : c.deleteCalendarEvent (e.google_event_id.getD "") = false := by
          revert hd; cases c.deleteCalendarEvent (e.google_event_id.getD "") <;> simp
        simp only [runBatchCancel, ht, hd', if_true, Bool.false_eq_true, if_false]
        show (applyEffects table
            (Effect.calendarDeleteAttempt (e.google_event_id.getD "") ::
             (runBatchCancel c rest).1)).filter _ = _
        unfold applyEffects
        simp only [List.foldl_cons]
        have hstep : applyEffect table
            (Effect.calendarDeleteAttempt (e.google_event_id.getD "")) = table := rfl
        rw [hstep]
        have := ih table
        unfold applyEffects at this
        exact this
    · have ht' : truthyS e.google_event_id = false := by
        revert ht; cases truthyS e.google_event_id <;> simp
      simp only [runBatchCancel, ht', Bool.false_eq_true, if_false]
      exact ih table

/-- C5: a bulk cancel ("all events today/tomorrow") attempts the calendar
delete of every externally-linked event of the resolved São Paulo day in
sequence, and the reply carries exactly the count and (in order) the
titles of the events whose delete succeeded; the reminders of every event
whose delete failed are left in the table exactly as they were (not
deleted, not updated — in particular still unsent). -/
theorem handleCancelarEvento_batch (c : Collaborators) (now : Int) (user : User)
    (msg : String) (mid : String) (events : List UpcomingEvent) (table : ReminderTable)
    (hat : truthyS user.google_access_token = true)
    (hrt : truthyS user.google_refresh_token = true)
    (hev : c.getUserRecentEvents user.id = some events)
    (hne : events.isEmpty = false)
    (hbatch : testBatchWord (jsToLower msg) = true)
    (hday : (testHoje (jsToLower msg) || testAmanha (jsToLower msg)) = true)
    (htc : (batchTargets events
        (if testAmanha (jsToLower msg) then spDay (now + msPerDay) else spDay now)).isEmpty
      = false) :
    handleCancelarEvento c now user msg mid =
      Effect.reaction mid "⏳" ::
        ((runBatchCancel c (batchTargets events
            (if testAmanha (jsToLower msg) then spDay (now + msPerDay) else spDay now))).1 ++
         [Effect.reaction mid "✅",
          Effect.sentReply user.whatsapp_number
            (Reply.batchCancelReply
              ((batchTargets events
                  (if testAmanha (jsToLower msg) then spDay (now + msPerDay)
                   else spDay now)).filter (cancelOk c)).length
              (((batchTargets events
                  (if testAmanha (jsToLower msg) then spDay (now + msPerDay)
                   else spDay now)).filter (cancelOk c)).map (fun e => e.titulo))
              (testHoje (jsToLower msg)))])
    ∧ (∀ g, c.deleteCalendarEvent g = false →
        (applyEffects table (handleCancelarEvento c now user msg mid)).filter
            (fun r => r.google_event_id == some g) =
          table.filter (fun r => r.google_event_id == some g)) := by
  have hcounts := runBatchCancel_counts c (batchTargets events
    (if testAmanha (jsToLower msg) then spDay (now + msPerDay) else spDay now))
  have htrace : handleCancelarEvento c now user msg mid =
      Effect.reaction mid "⏳" ::
        ((runBatchCancel c (batchTargets events
            (if testAmanha (jsToLower msg) then spDay (now + msPerDay) else spDay now))).1 ++
         [Effect.reaction mid "✅",
          Effect.sentReply user.whatsapp_number
            (Reply.batchCancelReply
              ((batchTargets events
                  (if testAmanha (jsToLower msg) then spDay (now + msPerDay)
                   else spDay now)).filter (cancelOk c)).length
              (((batchTargets events
                  (if testAmanha (jsToLower msg) then spDay (now + msPerDay)
                   else spDay now)).filter (cancelOk c)).map (fun e => e.titulo))
              (testHoje (jsToLower msg)))]) := by
    unfold handleCancelarEvento
    rw [hat, hrt, hev]
    dsimp only
    rw [hne]
    simp only [hbatch, hday, Bool.true_and, if_true, Bool.and_self]
    rw [htc]
    simp only [Bool.false_eq_true, if_false, hcounts.1, hcounts.2]
    simp
  refine ⟨htrace, ?_⟩
  intro g hgfail
  rw [htrace]
  unfold applyEffects
  simp only [List.foldl_cons, List.foldl_append, List.foldl_nil,
    applyEffect_reaction, applyEffect_sentReply]
  have h2 := applyEffects_batch_preserves c g hgfail (batchTargets events
    (if testAmanha (jsToLower msg) then spDay (now + msPerDay) else spDay now)) table
  unfold applyEffects at h2
  exact h2

/-- C5 witness: three same-day events, connector fails on the third —
the reply names exactly the two cancelled titles with count 2, and the
third event's reminder row is still present, unmodified and unsent. -/
theorem handleCancelarEvento_batch_witness :
    Effect.sentReply "+5511999990000"
        (Reply.batchCancelReply 2 ["Reunião A", "Reunião B"] true) ∈
      handleCancelarEvento batchCollabs 0 linkedUser "cancelar tudo de hoje" "m5"
    ∧ (applyEffects batchTable
        (handleCancelarEvento batchCollabs 0 linkedUser "cancelar tudo de hoje" "m5")).filter
          (fun r => r.google_event_id == some "g3") =
      [{ id := 3, google_event_id := some "g3",
         whatsapp_number := some "+5511999990000", event_title := "Audiência C",
         event_datetime := 7200000, reminder_time := 6600000, sent := false }] := by
  have h := handleCancelarEvento_batch batchCollabs 0 linkedUser
    "cancelar tudo de hoje" "m5" batchEvents batchTable
    rfl rfl rfl (by decide) (by decide) (by decide) (by decide)
  constructor
  · rw [h.1]
    decide
  · rw [h.2 "g3" (by decide)]
    decide

end DoraDP
